import Mathlib

/-!
Verification development for the chat transcript view-state core
(`src/packages/chat-component/src/components/chat-thread-component.ts`).

The entry model, the renderable tree, the event dispatch payloads, the
clipboard-copy state machine and the timer-based scroll scheduler are
embedded shallowly; the rendering methods are translated line by line from
the source into pure projections producing an `Html` tree, with the opaque
collaborators (DOM renderer, citation sub-widget, SVG assets, configured
labels) kept as opaque leaves or opaque string constants.
-/

/-- Text block of one entry: `value` is pre-rendered rich text (opaque markup
string), `followingSteps` an optional ordered sequence of sub-steps.
Declared outside the provided source file; shape taken from its uses in the
source and the data model section of the specification. -/
structure ChatMessageText where
  value : String
  followingSteps : Option (List String)
deriving DecidableEq, Repr

/-- Citation: opaque reference object passed through unchanged to the
citation sub-widget. Declared outside the provided source file; the
specification treats it as an opaque identifier. -/
structure Citation where
  id : String
deriving DecidableEq, Repr

/-- One transcript entry. Declared outside the provided source file; shape
taken from its uses in the source and the data model section of the
specification. -/
structure ChatThreadEntry where
  text : List ChatMessageText
  citations : Option (List Citation)
  followupQuestions : Option (List String)
  error : Option String
  timestamp : String
  isUserMessage : Bool
deriving DecidableEq, Repr

/-- `ChatActionButton` from the source: a declarative description of one
extra per-message action button. -/
structure ChatActionButton where
  label : String
  svgIcon : String
  isDisabled : Bool
  id : String
deriving DecidableEq, Repr

/-- The click handler wired to a rendered element, recorded structurally:
which component method the template attaches, with which captured
arguments. -/
inductive ClickHandler where
  | none : ClickHandler
  | copyResponse : ClickHandler
  | actionButton (button : ChatActionButton) (entry : ChatThreadEntry) : ClickHandler
  | followup (question : String) : ClickHandler
  | citation : ClickHandler
deriving DecidableEq, Repr

mutual

/-- Renderable tree produced by the projection. `raw` models
`unsafeHTML`/`unsafeSVG` (opaque markup), `nothing` models the empty
template returned as the empty string, `citationList` models the opaque
citation sub-widget consumed only through its input props. -/
inductive Html where
  | text : String → Html
  | raw : String → Html
  | nothing : Html
  | elem (tag : String) (className : String) (attrs : List (String × String)) (handler : ClickHandler) (children : HtmlList) : Html
  | citationList (citations : List Citation) (label : String) (handler : ClickHandler) : Html

/-- Child list of an element, as a mutually inductive list so that the
tree-walking functions below are structurally recursive. -/
inductive HtmlList where
  | nil : HtmlList
  | cons (h : Html) (t : HtmlList) : HtmlList

end

/-- Convert an ordinary list of nodes into a child list. -/
def HtmlList.ofList : List Html → HtmlList
  | [] => .nil
  | h :: t => .cons h (HtmlList.ofList t)

mutual

/-- Whether the tree contains an element node whose `class` attribute is
exactly `c`. Opaque `raw` leaves and the opaque citation sub-widget are not
inspected. -/
def containsClass (c : String) : Html → Bool
  | .elem _ className _ _ children => className == c || containsClassL c children
  | _ => false

/-- List version of `containsClass`. -/
def containsClassL (c : String) : HtmlList → Bool
  | .nil => false
  | .cons h t => containsClass c h || containsClassL c t

end

/-- Configured labels from `global-config`, which is outside the provided
source file. Modelled from the spec: the specification treats them as
opaque configured strings (for example, a configured bot-identity label),
so concrete placeholder values are used; no claim depends on their
values. -/
structure GlobalConfig where
  COPY_RESPONSE_BUTTON_LABEL_TEXT : String
  COPIED_SUCCESSFULLY_MESSAGE : String
  CITATIONS_LABEL : String
  USER_IS_BOT : String
deriving DecidableEq, Repr

/-- The configured global labels (placeholder values; opaque to the core). -/
def globalConfig : GlobalConfig :=
  { COPY_RESPONSE_BUTTON_LABEL_TEXT := "Copy response"
    COPIED_SUCCESSFULLY_MESSAGE := "Copied"
    CITATIONS_LABEL := "Citations"
    USER_IS_BOT := "Bot" }

/-- Opaque SVG asset (success icon), imported raw in the source. -/
def iconSuccess : String := "svg-success-icon"

/-- Opaque SVG asset (copy icon), imported raw in the source. -/
def iconCopyToClipboard : String := "svg-copy-icon"

/-- Opaque SVG asset (question bubble icon), imported raw in the source. -/
def iconQuestion : String := "svg-bubblequestion-icon"

/-- `renderCitation` translated from the source: render the citation region
only when the citation list is present and non-empty, otherwise return the
empty template. -/
def renderCitation (citations : Option (List Citation)) : Html :=
  match citations with
  | some cs =>
    if cs.length > 0 then
      Html.elem "div" "chat__citations" [] ClickHandler.none
        (HtmlList.ofList
          [Html.citationList cs globalConfig.CITATIONS_LABEL ClickHandler.citation])
    else Html.nothing
  | none => Html.nothing

/-- `renderFollowupQuestions` translated from the source: render the
follow-up region only when the question list is present and non-empty,
otherwise return the empty template. Each question becomes one list item
holding one anchor that carries the question text and a click handler
capturing that question. -/
def renderFollowupQuestions (followupQuestions : Option (List String)) : Html :=
  match followupQuestions with
  | some qs =>
    if qs.length > 0 then
      Html.elem "div" "items__listWrapper" [] ClickHandler.none
        (HtmlList.ofList
          ([Html.raw iconQuestion]
            ++ [Html.elem "ul" "items__list followup" [] ClickHandler.none
                  (HtmlList.ofList (qs.map (fun followupQuestion =>
                    Html.elem "li" "items__listItem--followup" [] ClickHandler.none
                      (HtmlList.ofList
                        [Html.elem "a" "items__link"
                          [("href", "#"), ("data-testid", "followUpQuestion")]
                          (ClickHandler.followup followupQuestion)
                          (HtmlList.ofList [Html.text followupQuestion])]))))]))
    else Html.nothing
  | none => Html.nothing

/-- `renderError` translated from the source. -/
def renderError (message : String) : Html :=
  Html.elem "p" "chat__txt error" [] ClickHandler.none
    (HtmlList.ofList [Html.text message])

/-- `renderTextEntry` translated from the source: the text block value as an
opaque rich-text paragraph, then — when present and non-empty — the steps
as an ordered list.  (The debounce side effect issued here while a response
is processing does not contribute to the returned tree; it is modelled
separately by the scheduler state machine below.) -/
def renderTextEntry (textEntry : ChatMessageText) : Html :=
  Html.elem "div" "chat_txt--entry-container" [] ClickHandler.none
    (HtmlList.ofList
      ([Html.elem "p" "chat__txt--entry" [] ClickHandler.none
          (HtmlList.ofList [Html.raw textEntry.value])]
        ++ (match textEntry.followingSteps with
            | some steps =>
              if steps.length > 0 then
                [Html.elem "ol" "items__list steps" [] ClickHandler.none
                  (HtmlList.ofList (steps.map (fun followingStep =>
                    Html.elem "li" "items__listItem--step" [] ClickHandler.none
                      (HtmlList.ofList [Html.raw followingStep]))))]
              else []
            | none => [])))

/-- `renderResponseActions` translated from the source: the action-button
row, holding one button per caller-supplied `ChatActionButton` (each
individually disabled per its own flag) plus the built-in copy-response
button (disabled by the global flag, label and icon swapped by the copied
flag). -/
def renderResponseActions (actionButtons : List ChatActionButton) (isDisabled : Bool)
    (isResponseCopied : Bool) (entry : ChatThreadEntry) : Html :=
  Html.elem "div" "chat__header" [] ClickHandler.none
    (HtmlList.ofList
      (actionButtons.map (fun actionButton =>
        Html.elem "button" "button chat__header--button"
          [("title", actionButton.label),
           ("data-testid", "chat-action-button-" ++ actionButton.id),
           ("disabled", if actionButton.isDisabled then "true" else "false")]
          (ClickHandler.actionButton actionButton entry)
          (HtmlList.ofList
            [Html.elem "span" "chat__header--span" [] ClickHandler.none
               (HtmlList.ofList [Html.text actionButton.label]),
             Html.raw actionButton.svgIcon]))
        ++ [Html.elem "button" "button chat__header--button"
              [("title", globalConfig.COPY_RESPONSE_BUTTON_LABEL_TEXT),
               ("data-testid", "chat-action-button-copy-response"),
               ("disabled", if isDisabled then "true" else "false")]
              ClickHandler.copyResponse
              (HtmlList.ofList
                [Html.elem "span" "chat__header--span" [] ClickHandler.none
                   (HtmlList.ofList
                     [Html.text (if isResponseCopied then
                         globalConfig.COPIED_SUCCESSFULLY_MESSAGE
                       else globalConfig.COPY_RESPONSE_BUTTON_LABEL_TEXT)]),
                 Html.raw (if isResponseCopied then iconSuccess else iconCopyToClipboard)])]))

/-- The body of the per-message map inside `render`: one transcript entry
projected to one list item. The action-button row is rendered only for
non-user messages; the citation region, the follow-up region and the error
are projected unconditionally from whatever the entry carries. -/
def renderChatEntry (actionButtons : List ChatActionButton) (isDisabled : Bool)
    (isResponseCopied : Bool) (message : ChatThreadEntry) : Html :=
  Html.elem "li"
    ("chat__listItem " ++ (if message.isUserMessage then "user-message" else "")) []
    ClickHandler.none
    (HtmlList.ofList
      [Html.elem "div"
         ("chat__txt " ++ (if message.isUserMessage then "user-message" else "")) []
         ClickHandler.none
         (HtmlList.ofList
           ([if message.isUserMessage then Html.nothing
             else renderResponseActions actionButtons isDisabled isResponseCopied message]
             ++ message.text.map renderTextEntry
             ++ [renderCitation message.citations,
                 renderFollowupQuestions message.followupQuestions,
                 match message.error with
                 | some e => renderError e
                 | none => Html.nothing])),
       Html.elem "p" "chat__txt--info" [] ClickHandler.none
         (HtmlList.ofList
           [Html.elem "span" "timestamp" [] ClickHandler.none
              (HtmlList.ofList [Html.text message.timestamp]),
            Html.text ", ",
            Html.elem "span" "user" [] ClickHandler.none
              (HtmlList.ofList
                [Html.text (if message.isUserMessage then "You" else globalConfig.USER_IS_BOT)])])])

/-- Payload of an outward notification, recorded structurally per event
kind. -/
inductive EventDetail where
  | actionButton (id : String) (chatThreadEntry : ChatThreadEntry) : EventDetail
  | followup (question : String) : EventDetail
deriving DecidableEq, Repr

/-- An outward `CustomEvent` as dispatched by the component: its name, its
payload and the `bubbles`/`composed` flags that let it escape shadow
boundaries to ancestor listeners. -/
structure DispatchedEvent where
  name : String
  detail : EventDetail
  bubbles : Bool
  composed : Bool
deriving DecidableEq, Repr

/-- `actionButtonClicked` translated from the source. The first component
records that `preventDefault` was called on the originating gesture; the
second is the dispatched event. -/
def actionButtonClicked (actionButton : ChatActionButton) (entry : ChatThreadEntry) :
    Bool × DispatchedEvent :=
  (true,
   { name := "on-action-button-click"
     detail := EventDetail.actionButton actionButton.id entry
     bubbles := true
     composed := true })

/-- `handleFollowupQuestionClick` translated from the source. The first
component records that `preventDefault` was called; the second is the
dispatched event. -/
def handleFollowupQuestionClick (question : String) : Bool × DispatchedEvent :=
  (true,
   { name := "on-followup-click"
     detail := EventDetail.followup question
     bubbles := true
     composed := true })

/-- Component state: the reactive properties and internal state fields of
`ChatThreadComponent`. `chatFooter` models the `@query` result for the
footer sentinel element (present or absent). -/
structure ComponentState where
  chatThread : List ChatThreadEntry
  actionButtons : List ChatActionButton
  isDisabled : Bool
  isProcessingResponse : Bool
  isResponseCopied : Bool
  chatFooter : Option Unit
deriving DecidableEq, Repr

/-- `render` translated from the source: the transcript list followed by
the footer sentinel element. -/
def render (s : ComponentState) : HtmlList :=
  HtmlList.ofList
    [Html.elem "ul" "chat__list" [("aria-live", "assertive")] ClickHandler.none
       (HtmlList.ofList
         (s.chatThread.map
           (renderChatEntry s.actionButtons s.isDisabled s.isResponseCopied))),
     Html.elem "div" "chat__footer" [("id", "chat-list-footer")] ClickHandler.none
       HtmlList.nil]

/-- The expression `this.chatThread.at(-1)?.text.at(-1)?.value` from
`copyResponseToClipboard`: the optional-chained read of the last text block
of the last entry. `at(-1)` on an empty array yields `undefined`, so the
read is total and yields `none` rather than failing. -/
def lastResponseText (chatThread : List ChatThreadEntry) : Option String :=
  (chatThread.getLast?).bind (fun entry => (entry.text.getLast?).map ChatMessageText.value)

/-- `copyResponseToClipboard` translated from the source: read the last
response text (possibly the undefined-derived `none`), issue a clipboard
write of that value unconditionally, and set `isResponseCopied` to true.
The write log records each value handed to `navigator.clipboard.writeText`
(`none` standing for the undefined value on an empty transcript). -/
def copyResponseToClipboard (s : ComponentState) (writes : List (Option String)) :
    ComponentState × List (Option String) :=
  let response := lastResponseText s.chatThread
  ({ s with isResponseCopied := true }, writes ++ [response])

/-- `k` successive clicks of the built-in copy button, threading component
state and the clipboard-write log. -/
def clickCopy : Nat → ComponentState × List (Option String) → ComponentState × List (Option String)
  | 0, p => p
  | n + 1, p => clickCopy n (copyResponseToClipboard p.1 p.2)

/-- State of the cooperative event-loop timer table used by
`setTimeout`/`clearTimeout`: the next (positive) timer id to allocate and
the ids of the timers that are armed and not yet fired or cancelled, in
arming order. -/
structure TimerState where
  nextId : Nat
  active : List Nat
deriving DecidableEq, Repr

/-- `setTimeout`: allocate a fresh positive timer id and arm it, returning
the handle. -/
def setTimeout (ts : TimerState) : Nat × TimerState :=
  (ts.nextId, { nextId := ts.nextId + 1, active := ts.active ++ [ts.nextId] })

/-- `clearTimeout`: disarm the timer with the given handle, if armed;
clearing an id that is not armed (such as the initial value 0, which is
never a valid timer id) is a no-op. -/
def clearTimeout (ts : TimerState) (id : Nat) : TimerState :=
  { ts with active := ts.active.filter (fun i => i ≠ id) }

/-- `debounceScrollIntoView` translated from the source: a FRESH local
handle initialized to 0 on every invocation, `clearTimeout` on that local
(always a no-op, since 0 is never an armed id), then `setTimeout` assigned
back into the local, which is discarded when the call returns. -/
def debounceScrollIntoView (ts : TimerState) : TimerState :=
  let timeout : Nat := 0
  let ts1 := clearTimeout ts timeout
  (setTimeout ts1).2

/-- The callback armed by `debounceScrollIntoView`, as run when a timer
fires: scroll the footer sentinel into view smoothly, centered, when the
sentinel exists; otherwise do nothing (`none`: the request is dropped, no
error value is produced). -/
def scrollTimeoutCallback (chatFooter : Option Unit) : Option (String × String) :=
  match chatFooter with
  | some _ => some ("smooth", "center")
  | none => none

/-- When the quiet period of every armed timer has elapsed with no further
activity, each armed timer runs `scrollTimeoutCallback` once: the number of
scroll invocations on the footer sentinel is the number of armed timers
(when the sentinel exists). -/
def scrollInvocationsOnExpiry (ts : TimerState) (chatFooter : Option Unit) : Nat :=
  match chatFooter with
  | some _ => ts.active.length
  | none => 0

/-- Iterated scroll requests: `n` calls of `debounceScrollIntoView` in
rapid succession (each within the quiet period of the previous one, so no
armed timer fires in between). -/
def rapidScrollRequests : Nat → TimerState → TimerState
  | 0, ts => ts
  | n + 1, ts => rapidScrollRequests n (debounceScrollIntoView ts)

/-- A `mutual` walker counting the anchor nodes that are the clickable
follow-up items for question `q`: an element whose handler is the follow-up
handler capturing `q` and whose sole child is the text `q`. -/
def isFollowupLink (q : String) : Html → Bool
  | .elem _ _ _ (ClickHandler.followup q2) (HtmlList.cons (Html.text t) HtmlList.nil) =>
    q2 == q && t == q
  | _ => false

mutual

/-- Number of clickable follow-up items for question `q` in the tree. -/
def countFollowupLinks (q : String) : Html → Nat
  | .elem tag className attrs handler children =>
    (if isFollowupLink q (.elem tag className attrs handler children) then 1 else 0)
      + countFollowupLinksL q children
  | _ => 0

/-- List version of `countFollowupLinks`. -/
def countFollowupLinksL (q : String) : HtmlList → Nat
  | .nil => 0
  | .cons h t => countFollowupLinks q h + countFollowupLinksL q t

end

/-- A concrete idle component state, used by the concrete witnesses. -/
def emptyState : ComponentState :=
  { chatThread := []
    actionButtons := []
    isDisabled := false
    isProcessingResponse := false
    isResponseCopied := false
    chatFooter := none }

/-- A user-authored entry that (contrary to the stated invariant) carries a
citation and a follow-up question, exhibiting the failure of C1 as
stated. -/
def userEntryWithCitation : ChatThreadEntry :=
  { text := [{ value := "Hi", followingSteps := none }]
    citations := some [{ id := "c1" }]
    followupQuestions := some ["More?"]
    error := none
    timestamp := "t1"
    isUserMessage := true }

theorem containsClass_ofList (c : String) (l : List Html) :
    containsClassL c (HtmlList.ofList l) = l.any (containsClass c) := by
  induction l with
  | nil => rfl
  | cons h t ih => simp [HtmlList.ofList, containsClassL, ih]

theorem countFollowupLinks_ofList (q : String) (l : List Html) :
    countFollowupLinksL q (HtmlList.ofList l) = (l.map (countFollowupLinks q)).sum := by
  induction l with
  | nil => rfl
  | cons h t ih => simp [HtmlList.ofList, countFollowupLinksL, ih]

theorem clickCopy_copied (k : Nat) (s : ComponentState) (writes : List (Option String))
    (h : s.isResponseCopied = true) : (clickCopy k (s, writes)).1.isResponseCopied = true := by
  induction k generalizing s writes with
  | zero => exact h
  | succ n ih => exact ih _ _ rfl

theorem clickCopy_writes (k : Nat) (s : ComponentState) (writes : List (Option String)) :
    (clickCopy k (s, writes)).2.length = writes.length + k := by
  induction k generalizing s writes with
  | zero => rfl
  | succ n ih =>
    have := ih { s with isResponseCopied := true } (writes ++ [lastResponseText s.chatThread])
    simp only [clickCopy, copyResponseToClipboard] at this ⊢
    simpa [Nat.add_assoc, Nat.add_comm, Nat.add_left_comm] using this

/-- C3: clicking the built-in copy button sets `isResponseCopied` to true;
after any number `k ≥ 1` of clicks the flag is still true (it never
reverts), while the clipboard write is repeated on each click (the write
log grows by exactly `k`). -/
theorem copy_button_idempotent (k : Nat) (s : ComponentState) (writes : List (Option String))
    (hk : 1 ≤ k) :
    (clickCopy k (s, writes)).1.isResponseCopied = true ∧
    (clickCopy k (s, writes)).2.length = writes.length + k := by
  constructor
  · obtain ⟨n, rfl⟩ : ∃ n, k = n + 1 := ⟨k - 1, (Nat.succ_pred_eq_of_pos hk).symm⟩
    simp only [clickCopy, copyResponseToClipboard]
    exact clickCopy_copied n _ _ rfl
  · exact clickCopy_writes k s writes

/-- Witness for C3 at a concrete state and three clicks. -/
theorem copy_button_idempotent_witness :
    (1 ≤ 3) ∧
    ((clickCopy 3 (emptyState, [])).1.isResponseCopied = true ∧
      (clickCopy 3 (emptyState, [])).2.length = ([] : List (Option String)).length + 3) :=
  ⟨by decide,
   copy_button_idempotent 3
     emptyState
     [] (by decide)⟩

/-- C4: the rendering projection is a deterministic pure function of the
tuple (chatThread, actionButtons, isDisabled, isProcessingResponse,
isResponseCopied): any two component states agreeing on that tuple (for
instance across two invocations, or differing in the remaining internal
fields) render to structurally identical output. -/
theorem render_deterministic (s1 s2 : ComponentState)
    (h1 : s1.chatThread = s2.chatThread)
    (h2 : s1.actionButtons = s2.actionButtons)
    (h3 : s1.isDisabled = s2.isDisabled)
    (_h4 : s1.isProcessingResponse = s2.isProcessingResponse)
    (h5 : s1.isResponseCopied = s2.isResponseCopied) :
    render s1 = render s2 := by
  simp only [render, h1, h2, h3, h5]

/-- Witness for C4: two concrete states differing only in the footer
sentinel field render identically. -/
theorem render_deterministic_witness :
    render emptyState =
    render { emptyState with chatFooter := some () } :=
  render_deterministic _ _ rfl rfl rfl rfl rfl

/-- C7: an action-button click calls `preventDefault` on the originating
gesture and dispatches the `on-action-button-click` event whose payload is
exactly the button id and the owning entry, with `bubbles` and `composed`
set so the event escapes shadow boundaries to ancestor listeners. -/
theorem actionButtonClicked_contract (actionButton : ChatActionButton)
    (entry : ChatThreadEntry) :
    actionButtonClicked actionButton entry =
      (true,
       { name := "on-action-button-click"
         detail := EventDetail.actionButton actionButton.id entry
         bubbles := true
         composed := true }) := rfl

/-- C8: invoking the copy operation on an empty transcript is total and
silent: the optional-chained read of the last text block yields `none`
rather than failing, and the operation still completes, producing the
updated state and one clipboard write. -/
theorem copy_empty_transcript_safe (s : ComponentState) (writes : List (Option String))
    (h : s.chatThread = []) :
    lastResponseText s.chatThread = none ∧
    copyResponseToClipboard s writes = ({ s with isResponseCopied := true }, writes ++ [none]) := by
  constructor
  · rw [h]; rfl
  · simp only [copyResponseToClipboard, h, lastResponseText, List.getLast?_nil, Option.none_bind]

/-- Witness for C8 at a concrete empty-transcript state. -/
theorem copy_empty_transcript_safe_witness :
    ((emptyState : ComponentState).chatThread = []) ∧
    (lastResponseText (emptyState : ComponentState).chatThread = none ∧
      copyResponseToClipboard
          emptyState
          [] =
        ({ emptyState with isResponseCopied := true },
         [] ++ [none])) :=
  ⟨rfl,
   copy_empty_transcript_safe
     emptyState
     [] rfl⟩

/-- C9: when a scheduled scroll fires, the callback scrolls the footer
sentinel smoothly and center-aligned when the sentinel exists, and when
the sentinel is absent it yields no action and no error value — the
request is simply dropped. -/
theorem scrollTimeoutCallback_contract :
    scrollTimeoutCallback (some ()) = some ("smooth", "center") ∧
    scrollTimeoutCallback none = none := ⟨rfl, rfl⟩

/-- C10: clicking copy with an empty transcript still flips
`isResponseCopied` to true and still appends one clipboard write, whose
value is the undefined-derived `none`: the flip and the write are
unconditional. -/
theorem copy_empty_transcript_unconditional (s : ComponentState)
    (writes : List (Option String)) (h : s.chatThread = []) :
    (copyResponseToClipboard s writes).1.isResponseCopied = true ∧
    (copyResponseToClipboard s writes).2 = writes ++ [none] := by
  constructor
  · rfl
  · simp only [copyResponseToClipboard, h, lastResponseText, List.getLast?_nil, Option.none_bind]

/-- Witness for C10 at a concrete empty-transcript state. -/
theorem copy_empty_transcript_unconditional_witness :
    (({ emptyState with isDisabled := true } : ComponentState).chatThread = []) ∧
    ((copyResponseToClipboard
        { emptyState with isDisabled := true }
        [some "x"]).1.isResponseCopied = true ∧
      (copyResponseToClipboard
        { emptyState with isDisabled := true }
        [some "x"]).2 = [some "x"] ++ [none]) :=
  ⟨rfl,
   copy_empty_transcript_unconditional
     { emptyState with isDisabled := true }
     [some "x"] rfl⟩

/-- C2 fails on the code: the debounce local handle is freshly initialized
to 0 on every call, so `clearTimeout` never cancels the previously armed
timer. Two scroll requests in rapid succession (both within the quiet
period, starting from an idle timer table) leave two armed timers, and when
the quiet periods elapse both fire, producing two scroll invocations on the
footer sentinel instead of the claimed exactly one. -/
theorem debounce_two_requests_two_scrolls :
    scrollInvocationsOnExpiry
        (rapidScrollRequests 2 { nextId := 1, active := [] }) (some ()) = 2 ∧
    (rapidScrollRequests 2 { nextId := 1, active := [] }).active = [1, 2] := by
  constructor <;> rfl


/-- C5: the citation region is entirely absent (`Html.nothing`, not an
empty wrapper) when the citations field is `none` or the empty list, and
is rendered (a non-empty `chat__citations` region) whenever the field is
present and non-empty. -/
theorem renderCitation_gating :
    renderCitation none = Html.nothing ∧
    renderCitation (some []) = Html.nothing ∧
    ∀ cs : List Citation, cs ≠ [] →
      renderCitation (some cs) ≠ Html.nothing ∧
      containsClass "chat__citations" (renderCitation (some cs)) = true := by
  refine ⟨rfl, rfl, ?_⟩
  intro cs hcs
  match cs, hcs with
  | c :: rest, _ =>
    constructor
    · simp [renderCitation]
    · simp [renderCitation, containsClass]

/-- Witness for C5 at a concrete one-element citation list. -/
theorem renderCitation_gating_witness :
    ([({ id := "c1" } : Citation)] ≠ []) ∧
    (renderCitation (some [({ id := "c1" } : Citation)]) ≠ Html.nothing ∧
      containsClass "chat__citations"
        (renderCitation (some [({ id := "c1" } : Citation)])) = true) :=
  ⟨by simp, renderCitation_gating.2.2 [{ id := "c1" }] (by simp)⟩

/-- C6: the follow-up region is absent (`Html.nothing`) when the field is
`none` or the empty list; for a single non-empty question exactly one
clickable item is rendered, carrying exactly that question as its text and
a click handler capturing it; and clicking it calls `preventDefault` and
dispatches the `on-followup-click` event carrying that question. -/
theorem renderFollowupQuestions_gating (q : String) (_hq : q ≠ "") :
    renderFollowupQuestions none = Html.nothing ∧
    renderFollowupQuestions (some []) = Html.nothing ∧
    countFollowupLinks q (renderFollowupQuestions (some [q])) = 1 ∧
    handleFollowupQuestionClick q =
      (true,
       { name := "on-followup-click"
         detail := EventDetail.followup q
         bubbles := true
         composed := true }) := by
  refine ⟨rfl, rfl, ?_, rfl⟩
  simp [renderFollowupQuestions, countFollowupLinks, countFollowupLinksL,
    HtmlList.ofList, isFollowupLink]

/-- Witness for C6 at a concrete non-empty question. -/
theorem renderFollowupQuestions_gating_witness :
    ("What else?" ≠ "") ∧
    (renderFollowupQuestions none = Html.nothing ∧
      renderFollowupQuestions (some []) = Html.nothing ∧
      countFollowupLinks "What else?" (renderFollowupQuestions (some ["What else?"])) = 1 ∧
      handleFollowupQuestionClick "What else?" =
        (true,
         { name := "on-followup-click"
           detail := EventDetail.followup "What else?"
           bubbles := true
           composed := true })) :=
  ⟨by simp, renderFollowupQuestions_gating "What else?" (by simp)⟩

theorem containsClass_elem (c tag className : String) (attrs : List (String × String))
    (handler : ClickHandler) (children : HtmlList) :
    containsClass c (Html.elem tag className attrs handler children) =
      (className == c || containsClassL c children) := rfl

theorem containsClass_text (c s : String) : containsClass c (Html.text s) = false := rfl

theorem containsClass_raw (c s : String) : containsClass c (Html.raw s) = false := rfl

theorem containsClass_nothing (c : String) : containsClass c Html.nothing = false := rfl

theorem containsClass_citationList (c : String) (cs : List Citation) (label : String)
    (handler : ClickHandler) :
    containsClass c (Html.citationList cs label handler) = false := rfl

theorem containsClassL_nil (c : String) : containsClassL c HtmlList.nil = false := rfl

theorem containsClassL_cons (c : String) (h : Html) (t : HtmlList) :
    containsClassL c (HtmlList.cons h t) = (containsClass c h || containsClassL c t) := rfl

theorem containsClass_renderTextEntry (c : String) (t : ChatMessageText)
    (h1 : ("chat_txt--entry-container" == c) = false)
    (h2 : ("chat__txt--entry" == c) = false)
    (h3 : ("items__list steps" == c) = false)
    (h4 : ("items__listItem--step" == c) = false) :
    containsClass c (renderTextEntry t) = false := by
  obtain ⟨v, fs⟩ := t
  cases fs with
  | none =>
    simp [renderTextEntry, containsClass, containsClassL, HtmlList.ofList, h1, h2]
  | some steps =>
    by_cases hs : steps.length > 0
    · simp only [renderTextEntry, hs, if_true]
      simp [containsClass, containsClassL, HtmlList.ofList, containsClass_ofList,
        List.any_map, Function.comp, h1, h2, h3, h4]
    · simp [renderTextEntry, hs, containsClass, containsClassL, HtmlList.ofList, h1, h2]

theorem containsClass_renderCitation (c : String) (citations : Option (List Citation))
    (h1 : ("chat__citations" == c) = false) :
    containsClass c (renderCitation citations) = false := by
  cases citations with
  | none => rfl
  | some cs =>
    by_cases hcs : cs.length > 0
    · simp [renderCitation, hcs, containsClass, containsClassL, HtmlList.ofList, h1]
    · simp [renderCitation, hcs, containsClass]

theorem containsClass_renderFollowupQuestions (c : String)
    (followupQuestions : Option (List String))
    (h1 : ("items__listWrapper" == c) = false)
    (h2 : ("items__list followup" == c) = false)
    (h3 : ("items__listItem--followup" == c) = false)
    (h4 : ("items__link" == c) = false) :
    containsClass c (renderFollowupQuestions followupQuestions) = false := by
  cases followupQuestions with
  | none => rfl
  | some qs =>
    by_cases hqs : qs.length > 0
    · simp only [renderFollowupQuestions, hqs, if_true]
      simp [containsClass, containsClassL, HtmlList.ofList, containsClass_ofList,
        List.any_map, Function.comp, h1, h2, h3, h4]
    · simp [renderFollowupQuestions, hqs, containsClass]

theorem containsClass_errorSlot (c : String) (error : Option String)
    (h1 : ("chat__txt error" == c) = false) :
    containsClass c (match error with
      | some e => renderError e
      | none => Html.nothing) = false := by
  cases error with
  | none => rfl
  | some e => simp [renderError, containsClass, containsClassL, HtmlList.ofList, h1]

/-- C1 counterexample: a user-authored entry whose citations and follow-up
fields are non-empty DOES render a citation region and a follow-up region —
the projection passes both fields to their renderers unconditionally, for
user messages too — refuting the claim that these regions are absent
regardless of the field contents. -/
theorem user_entry_regions_counterexample :
    userEntryWithCitation.isUserMessage = true ∧
    containsClass "chat__citations"
      (renderChatEntry [] false false userEntryWithCitation) = true ∧
    containsClass "items__listWrapper"
      (renderChatEntry [] false false userEntryWithCitation) = true := by
  refine ⟨rfl, ?_, ?_⟩ <;> rfl

/-- C1 amended: for every user-authored entry, the rendered projection
contains no action-button row; and its citation region (respectively its
follow-up region) is absent whenever the citations (respectively
followupQuestions) field is absent or empty. (As the counterexample shows,
the regions DO render when those fields are non-empty, so the "regardless
of the contents" strengthening is dropped.) -/
theorem user_entry_render_amended (actionButtons : List ChatActionButton)
    (isDisabled isResponseCopied : Bool) (e : ChatThreadEntry)
    (h : e.isUserMessage = true) :
    containsClass "chat__header"
      (renderChatEntry actionButtons isDisabled isResponseCopied e) = false ∧
    ((e.citations = none ∨ e.citations = some []) →
      containsClass "chat__citations"
        (renderChatEntry actionButtons isDisabled isResponseCopied e) = false) ∧
    ((e.followupQuestions = none ∨ e.followupQuestions = some []) →
      containsClass "items__listWrapper"
        (renderChatEntry actionButtons isDisabled isResponseCopied e) = false) := by
  refine ⟨?_, ?_, ?_⟩
  · simp [renderChatEntry, h, containsClass_elem, containsClass_nothing,
      containsClassL_cons, containsClassL_nil, HtmlList.ofList, containsClass_text,
      containsClass_ofList, List.any_map, List.any_append, Function.comp,
      containsClass_renderTextEntry, containsClass_renderCitation,
      containsClass_renderFollowupQuestions, containsClass_errorSlot]
  · intro hcit
    have hc : containsClass "chat__citations" (renderCitation e.citations) = false := by
      rcases hcit with hc1 | hc1 <;> rw [hc1] <;> rfl
    simp [renderChatEntry, h, containsClass_elem, containsClass_nothing,
      containsClassL_cons, containsClassL_nil, HtmlList.ofList, containsClass_text,
      containsClass_ofList, List.any_map, List.any_append, Function.comp, hc,
      containsClass_renderTextEntry, containsClass_renderFollowupQuestions,
      containsClass_errorSlot]
  · intro hfq
    have hf : containsClass "items__listWrapper"
        (renderFollowupQuestions e.followupQuestions) = false := by
      rcases hfq with hf1 | hf1 <;> rw [hf1] <;> rfl
    simp [renderChatEntry, h, containsClass_elem, containsClass_nothing,
      containsClassL_cons, containsClassL_nil, HtmlList.ofList, containsClass_text,
      containsClass_ofList, List.any_map, List.any_append, Function.comp, hf,
      containsClass_renderTextEntry, containsClass_renderCitation,
      containsClass_errorSlot]

/-- Witness for the amended C1 at a concrete user entry with empty
citation and follow-up fields. -/
theorem user_entry_render_amended_witness :
    (({ text := [{ value := "Hi", followingSteps := none }], citations := none,
        followupQuestions := none, error := none, timestamp := "t1",
        isUserMessage := true } : ChatThreadEntry).isUserMessage = true) ∧
    (containsClass "chat__header"
        (renderChatEntry [] false false
          { text := [{ value := "Hi", followingSteps := none }], citations := none,
            followupQuestions := none, error := none, timestamp := "t1",
            isUserMessage := true }) = false ∧
      containsClass "chat__citations"
        (renderChatEntry [] false false
          { text := [{ value := "Hi", followingSteps := none }], citations := none,
            followupQuestions := none, error := none, timestamp := "t1",
            isUserMessage := true }) = false ∧
      containsClass "items__listWrapper"
        (renderChatEntry [] false false
          { text := [{ value := "Hi", followingSteps := none }], citations := none,
            followupQuestions := none, error := none, timestamp := "t1",
            isUserMessage := true }) = false) := by
  have main := user_entry_render_amended [] false false
    { text := [{ value := "Hi", followingSteps := none }], citations := none,
      followupQuestions := none, error := none, timestamp := "t1",
      isUserMessage := true } rfl
  exact ⟨rfl, main.1, main.2.1 (Or.inl rfl), main.2.2 (Or.inl rfl)⟩
